import Mathlib

set_option autoImplicit false

/-!
Verification development for the CZApp function-definition parsing and
validation pipeline (CZParser.py, CZMathematics.py, CZFunctions.py).

Numbers are modelled as rationals. Python exceptions are modelled with
Except; an `Except.error` value is an exception propagating to the caller.
The third-party Equation library (string to expression parsing and call
evaluation) is modelled by an arithmetic AST `Expr` over named variables:
a string that fails to parse is represented by `none : Option Expr`
(the library raises TypeError there, per the comment in
CZParser.checkFunction_math), and calling the compiled expression first
checks that every free variable is among the declared arguments
x, A, B (a leftover variable makes the call raise TypeError), then
evaluates the arithmetic, raising ZeroDivisionError on division by zero
or on a zero base raised to a negative power.
-/

/-- Arithmetic expressions over named variables: the fragment of the
Equation library's input language used by the application (infix
arithmetic with integer exponents). -/
inductive Expr where
  | const (q : ℚ)
  | var (name : String)
  | neg (a : Expr)
  | add (a b : Expr)
  | sub (a b : Expr)
  | mul (a b : Expr)
  | div (a b : Expr)
  | pow (a : Expr) (n : ℤ)
deriving DecidableEq, Repr

/-- Errors an expression call can raise: TypeError (undeclared variable)
or ZeroDivisionError. -/
inductive EvalErr where
  | typeError
  | zeroDivisionError
deriving DecidableEq, Repr

/-- True when every variable occurring in the expression is one of the
declared argument names x, A, B. -/
def varsOk : Expr → Bool
  | Expr.const _ => true
  | Expr.var n => n = "x" || n = "A" || n = "B"
  | Expr.neg a => varsOk a
  | Expr.add a b => varsOk a && varsOk b
  | Expr.sub a b => varsOk a && varsOk b
  | Expr.mul a b => varsOk a && varsOk b
  | Expr.div a b => varsOk a && varsOk b
  | Expr.pow a _ => varsOk a

/-- Arithmetic evaluation of an expression at x, A, B. Division by zero
and a zero base under a negative exponent raise ZeroDivisionError; a
variable other than x, A, B raises TypeError (unreachable under
`varsOk`). -/
def evalExpr : Expr → ℚ → ℚ → ℚ → Except EvalErr ℚ
  | Expr.const q, _, _, _ => Except.ok q
  | Expr.var n, x, A, B =>
      if n = "x" then Except.ok x
      else if n = "A" then Except.ok A
      else if n = "B" then Except.ok B
      else Except.error EvalErr.typeError
  | Expr.neg a, x, A, B =>
      match evalExpr a x A B with
      | Except.error err => Except.error err
      | Except.ok v => Except.ok (-v)
  | Expr.add a b, x, A, B =>
      match evalExpr a x A B with
      | Except.error err => Except.error err
      | Except.ok v =>
          match evalExpr b x A B with
          | Except.error err => Except.error err
          | Except.ok w => Except.ok (v + w)
  | Expr.sub a b, x, A, B =>
      match evalExpr a x A B with
      | Except.error err => Except.error err
      | Except.ok v =>
          match evalExpr b x A B with
          | Except.error err => Except.error err
          | Except.ok w => Except.ok (v - w)
  | Expr.mul a b, x, A, B =>
      match evalExpr a x A B with
      | Except.error err => Except.error err
      | Except.ok v =>
          match evalExpr b x A B with
          | Except.error err => Except.error err
          | Except.ok w => Except.ok (v * w)
  | Expr.div a b, x, A, B =>
      match evalExpr a x A B with
      | Except.error err => Except.error err
      | Except.ok v =>
          match evalExpr b x A B with
          | Except.error err => Except.error err
          | Except.ok w =>
              if w = 0 then Except.error EvalErr.zeroDivisionError
              else Except.ok (v / w)
  | Expr.pow a n, x, A, B =>
      match evalExpr a x A B with
      | Except.error err => Except.error err
      | Except.ok v =>
          if v = 0 ∧ n < 0 then Except.error EvalErr.zeroDivisionError
          else Except.ok (v ^ n)

/-- Calling a compiled Equation expression at arguments x, A, B: the
library first rejects a call with unbound variables (TypeError), then
evaluates the arithmetic. -/
def exprCall (e : Expr) (x A B : ℚ) : Except EvalErr ℚ :=
  if varsOk e then evalExpr e x A B else Except.error EvalErr.typeError

/-- The result of handing a raw text to the Equation library's parser:
`none` when the text is not parseable as an expression (the constructor
raises TypeError), `some e` when it parses to `e`. -/
abbrev Raw := Option Expr

/-- Python values flowing through the pipeline: the record fields read
from JSON and the arguments the GUI passes to setters are numbers or
strings. -/
inductive PyVal where
  | num (q : ℚ)
  | str (s : String)
deriving DecidableEq, Repr

/-- True exactly on the `num` constructor. -/
def PyVal.isNum : PyVal → Bool
  | PyVal.num _ => true
  | PyVal.str _ => false

/-- Python exceptions the modelled code can raise. `InvalidParameter`
from CZMathematics.py is the dedicated constructor `invalidParameter`. -/
inductive PyErr where
  | typeError
  | valueError
  | zeroDivisionError
  | keyError
  | indexError
  | invalidParameter
deriving DecidableEq, Repr

/-- Exceptions of an expression call, seen as Python exceptions. -/
def evalErrToPy : EvalErr → PyErr
  | EvalErr.typeError => PyErr.typeError
  | EvalErr.zeroDivisionError => PyErr.zeroDivisionError

/-- Numeric value of a list of decimal digit characters. -/
def digitsToNat (ds : List Char) : ℕ :=
  ds.foldl (fun n c => 10 * n + (c.toNat - 48)) 0

/-- Decimal fragment of Python's float() on strings, digit stage: an
optional sign followed by digits, optionally with a decimal point ("3",
"-2.5", "1."). Yields (negative sign, integer part, fraction digits,
number of fraction digits), or `none` for a string outside the fragment
(e.g. "bananas"), where float() raises ValueError. -/
def parseDecimal (cs : List Char) : Option (Bool × ℕ × ℕ × ℕ) :=
  let signAndRest : Bool × List Char :=
    match cs with
    | '-' :: rest => (true, rest)
    | '+' :: rest => (false, rest)
    | _ => (false, cs)
  let neg := signAndRest.1
  let body := signAndRest.2
  let ip := body.takeWhile Char.isDigit
  let rest := body.dropWhile Char.isDigit
  match rest with
  | [] => if ip.isEmpty then none else some (neg, digitsToNat ip, 0, 0)
  | '.' :: rest2 =>
      let fp := rest2.takeWhile Char.isDigit
      let rest3 := rest2.dropWhile Char.isDigit
      if rest3.isEmpty && !(ip.isEmpty && fp.isEmpty) then
        some (neg, digitsToNat ip, digitsToNat fp, fp.length)
      else none
  | _ => none

/-- Decimal fragment of Python's float() on strings: the value of the
parsed sign, integer and fraction parts as a rational. -/
def parseFloat (s : String) : Option ℚ :=
  (parseDecimal s.toList).map
    (fun r => (if r.1 then (-1 : ℚ) else 1) * ((r.2.1 : ℚ) + (r.2.2.1 : ℚ) / 10 ^ r.2.2.2))

/-- Python float() coercion on the modelled values: a number coerces to
itself, a string goes through the decimal fragment; `none` is a raised
coercion failure (ValueError). -/
def pyFloat : PyVal → Option ℚ
  | PyVal.num q => some q
  | PyVal.str s => parseFloat s

/-- A FunctionRecord: the JSON object read by the Parser. Each field is
`none` when the key is absent. The `raw` field holds the parse result of
the raw text (see `Raw`); `A` and `B` hold the stored value, a string in
fresh JSON input but a number after a setter write-back. -/
structure Record where
  raw : Option Raw
  name : Option String
  desc : Option String
  A_desc : Option String
  B_desc : Option String
  A : Option PyVal
  B : Option PyVal
deriving DecidableEq, Repr

/-- Parser.checkFunction_math: builds the Equation expression from the
raw text and probes it at x=0, A=0, B=0. TypeError (unparseable text or
an unbound variable, from constructor or call) gives False; a
ZeroDivisionError at the probe point is tolerated and gives True;
otherwise True. -/
def checkFunction_math (raw : Raw) : Bool :=
  match raw with
  | none => false
  | some e =>
      match exprCall e 0 0 0 with
      | Except.error EvalErr.typeError => false
      | Except.error EvalErr.zeroDivisionError => true
      | Except.ok _ => true

/-- Parser.checkFunction_params: True when both parameter keys A and B
are present. -/
def checkFunction_params (r : Record) : Bool :=
  r.A.isSome && r.B.isSome

/-- Parser.checkFunction_desc: iterates over the descriptor keys
name, desc, A_desc, B_desc and is True when all four are present. -/
def checkFunction_desc (r : Record) : Bool :=
  r.name.isSome && r.desc.isSome && r.A_desc.isSome && r.B_desc.isSome

/-- Step 2 of the readFunctions loop: if the name key is absent, set it
to the placeholder "Unnamed Function". -/
def defaultName (r : Record) : Record :=
  if r.name.isNone then { r with name := some "Unnamed Function" } else r

/-- Step 3 of the readFunctions loop: if checkFunction_params fails,
update both A and B to the string "0.0". -/
def defaultParams (r : Record) : Record :=
  if checkFunction_params r then r
  else { r with A := some (PyVal.str "0.0"), B := some (PyVal.str "0.0") }

/-- Step 4 of the readFunctions loop: if checkFunction_desc fails,
update A_desc, B_desc and desc to the empty string. -/
def defaultDescs (r : Record) : Record :=
  if checkFunction_desc r then r
  else { r with A_desc := some "", B_desc := some "", desc := some "" }

/-- The per-record mutation of the readFunctions loop, in source order:
default the name, then the parameter pair, then the descriptor group. -/
def cleanRecord (r : Record) : Record :=
  defaultDescs (defaultParams (defaultName r))

/-- The remove_flag logic of the readFunctions loop: a record is kept
when its raw key is present and checkFunction_math accepts the text. -/
def keepRecord (r : Record) : Bool :=
  match r.raw with
  | none => false
  | some p => checkFunction_math p

/-- The readFunctions loop. The first component is the input collection
after the loop's in-place mutations (every record is mutated, kept or
not); the second is the cleaned_functions list that is returned. -/
def readFunctionsLoop : List Record → List Record × List Record
  | [] => ([], [])
  | r :: rs =>
      let r2 := cleanRecord r
      let p := readFunctionsLoop rs
      (r2 :: p.1, if keepRecord r then r2 :: p.2 else p.2)

/-- Parser.readFunctions: the list of validated records returned to the
caller. -/
def readFunctions (l : List Record) : List Record :=
  (readFunctionsLoop l).2

/-- The ValidatedFunctionRecord shape: raw, name, A, B, desc, A_desc and
B_desc are all present. -/
def validShape (r : Record) : Bool :=
  r.raw.isSome && r.name.isSome && r.A.isSome && r.B.isSome &&
    r.desc.isSome && r.A_desc.isSome && r.B_desc.isSome

/-- The state of the dynamically built Function object returned by
Parser.returnFunction: the attributes self.A, self.B, self.raw and
self.function_template. -/
structure FunState where
  A : PyVal
  B : PyVal
  raw : Raw
  function_template : Record
deriving DecidableEq, Repr

/-- Function.__init__: self.A and self.B are float() of the template's
A and B values, with a ValueError (string failing coercion) caught and
the parameter re-set to 0.0; a missing key raises KeyError through the
subscript. self.raw is the template's raw text and the template itself
is stored for later lookups. -/
def mkFunction (t : Record) : Except PyErr FunState :=
  match t.A with
  | none => Except.error PyErr.keyError
  | some vA =>
      let a : ℚ := match pyFloat vA with | some q => q | none => 0
      match t.B with
      | none => Except.error PyErr.keyError
      | some vB =>
          let b : ℚ := match pyFloat vB with | some q => q | none => 0
          match t.raw with
          | none => Except.error PyErr.keyError
          | some p =>
              Except.ok { A := PyVal.num a, B := PyVal.num b, raw := p,
                          function_template := t }

/-- Parser.returnFunction: index into the validated list (IndexError
past the end) and instantiate the record as a Function object. -/
def returnFunction (functions : List Record) (index : ℕ) : Except PyErr FunState :=
  match functions.get? index with
  | none => Except.error PyErr.indexError
  | some r => mkFunction r

/-- Function.set_A_value: probes float(A); on ValueError only a warning
is logged and nothing changes; otherwise the UNCOERCED argument is
stored in self.A and written back into the template. -/
def FunState.set_A_value (f : FunState) (v : PyVal) : FunState :=
  match pyFloat v with
  | none => f
  | some _ =>
      { f with A := v, function_template := { f.function_template with A := some v } }

/-- Function.set_B_value: same shape as Function.set_A_value. -/
def FunState.set_B_value (f : FunState) (v : PyVal) : FunState :=
  match pyFloat v with
  | none => f
  | some _ =>
      { f with B := v, function_template := { f.function_template with B := some v } }

/-- Function.get_A_value. -/
def FunState.get_A_value (f : FunState) : PyVal := f.A

/-- Function.get_B_value. -/
def FunState.get_B_value (f : FunState) : PyVal := f.B

/-- The body of the try block in Function.evaluate: rebuild the Equation
expression from self.raw (the construction raises TypeError on
unparseable text) and call it at x=value, A=self.A, B=self.B. Feeding a
non-numeric parameter into the arithmetic raises TypeError. -/
def evaluateBody (f : FunState) (value : ℚ) : Except PyErr ℚ :=
  match f.raw with
  | none => Except.error PyErr.typeError
  | some e =>
      match f.A, f.B with
      | PyVal.num a, PyVal.num b =>
          match exprCall e value a b with
          | Except.ok r => Except.ok r
          | Except.error err => Except.error (evalErrToPy err)
      | _, _ => Except.error PyErr.typeError

/-- Function.evaluate: runs the body under a handler that catches only
ValueError, logging it and returning None; every other exception
propagates. `Except.ok none` is a returned None, `Except.ok (some r)` a
returned value, `Except.error e` a propagating exception. -/
def FunState.evaluate (f : FunState) (value : ℚ) : Except PyErr (Option ℚ) :=
  match evaluateBody f value with
  | Except.ok r => Except.ok (some r)
  | Except.error PyErr.valueError => Except.ok none
  | Except.error e => Except.error e

/-- The state written by TwoParameterFunction.__init__ (CZMathematics):
the private parameters _A and _B (stored as passed, uncoerced) and the
default metadata attributes. -/
structure TPFState where
  A : PyVal
  B : PyVal
  name : String
  description : String
  raw : String
  A_desc : String
  B_desc : String
deriving DecidableEq, Repr

/-- TwoParameterFunction.__init__ as called with an explicit argument
list: Python raises TypeError unless exactly the two required positional
arguments A and B are supplied. -/
def TPF_initArgs (args : List PyVal) : Except PyErr TPFState :=
  match args with
  | [A, B] =>
      Except.ok { A := A, B := B, name := "Unnamed",
                  description := "No description", raw := "",
                  A_desc := "", B_desc := "" }
  | _ => Except.error PyErr.typeError

/-- TwoParameterFunction.set_A_value: self._A = float(A) under a bare
except that re-raises any failure as InvalidParameter. -/
def TPF_set_A_value (st : TPFState) (v : PyVal) : Except PyErr TPFState :=
  match pyFloat v with
  | some q => Except.ok { st with A := PyVal.num q }
  | none => Except.error PyErr.invalidParameter

/-- TwoParameterFunction.set_B_value: same shape on _B. -/
def TPF_set_B_value (st : TPFState) (v : PyVal) : Except PyErr TPFState :=
  match pyFloat v with
  | some q => Except.ok { st with B := PyVal.num q }
  | none => Except.error PyErr.invalidParameter

/-- TwoParameterFunction.get_A_value. -/
def TPF_get_A_value (st : TPFState) : PyVal := st.A

/-- TwoParameterFunction.get_B_value. -/
def TPF_get_B_value (st : TPFState) : PyVal := st.B

/-- Pyramid.__init__ (CZFunctions): takes A and B (defaulting to 10) but
calls super().__init__() with NO arguments; only if that call returned
would the metadata fields be overwritten. -/
def Pyramid_init (A : PyVal := PyVal.num 10) (B : PyVal := PyVal.num 10) :
    Except PyErr TPFState :=
  Except.map
    (fun st =>
      { st with name := "Pyramid_Routine",
                description := "Draws a pyramid shape on the plot",
                raw := "Pyramid shape",
                A_desc := "Pyramid height",
                B_desc := "Number of layers" })
    (TPF_initArgs [])

/-- The parse of the raw text "A*x+B". -/
def exprAxB : Expr :=
  Expr.add (Expr.mul (Expr.var "A") (Expr.var "x")) (Expr.var "B")

/-- The parse of the raw text "1/x". -/
def exprOneOverX : Expr :=
  Expr.div (Expr.const 1) (Expr.var "x")

/-- The single-record input collection corresponding to the JSON text
[{"raw":"A*x+B"}]. -/
def recAxB : Record :=
  { raw := some (some exprAxB), name := none, desc := none,
    A_desc := none, B_desc := none, A := none, B := none }

/-- The record [{"raw":"1/x"}] with full metadata and parameters. -/
def recOneOverX : Record :=
  { raw := some (some exprOneOverX), name := some "Inverse",
    desc := some "inverse", A_desc := some "unused", B_desc := some "unused",
    A := some (PyVal.str "1.0"), B := some (PyVal.str "1.0") }

/-- The survivor record produced by loading [{"raw":"A*x+B"}]. -/
def cleanRecAxB : Record :=
  { raw := some (some exprAxB), name := some "Unnamed Function",
    desc := some "", A_desc := some "", B_desc := some "",
    A := some (PyVal.str "0.0"), B := some (PyVal.str "0.0") }

/-- A record with A absent and B present, used as a concrete instance. -/
def recMissingA : Record :=
  { raw := some (some exprAxB), name := some "f", desc := some "d",
    A_desc := some "da", B_desc := some "db",
    A := none, B := some (PyVal.str "1.0") }

/-- A record with desc absent but both parameter descriptions present,
used as a concrete instance. -/
def recMissingDesc : Record :=
  { raw := some (some exprAxB), name := some "f", desc := none,
    A_desc := some "da", B_desc := some "db",
    A := some (PyVal.str "1.0"), B := some (PyVal.str "1.0") }

theorem pyFloat_00 : pyFloat (PyVal.str "0.0") = some 0 := by
  have h : parseDecimal "0.0".toList = some (false, 0, 0, 1) := by decide
  simp only [pyFloat, parseFloat]
  rw [h]
  norm_num

theorem pyFloat_15 : pyFloat (PyVal.str "1.5") = some (3 / 2) := by
  have h : parseDecimal "1.5".toList = some (false, 1, 5, 1) := by decide
  simp only [pyFloat, parseFloat]
  rw [h]
  norm_num

theorem pyFloat_10 : pyFloat (PyVal.str "1.0") = some 1 := by
  have h : parseDecimal "1.0".toList = some (false, 1, 0, 1) := by decide
  simp only [pyFloat, parseFloat]
  rw [h]
  norm_num

theorem pyFloat_abc : pyFloat (PyVal.str "abc") = none := by
  have h : parseDecimal "abc".toList = none := by decide
  simp only [pyFloat, parseFloat]
  rw [h]
  rfl

theorem readFunctions_recAxB : readFunctions [recAxB] = [cleanRecAxB] := by
  simp [readFunctions, readFunctionsLoop, keepRecord, checkFunction_math, exprCall,
        varsOk, evalExpr, recAxB, exprAxB, cleanRecord, defaultName, defaultParams,
        defaultDescs, checkFunction_params, checkFunction_desc, cleanRecAxB]

theorem returnFunction_recAxB :
    returnFunction (readFunctions [recAxB]) 0 =
      Except.ok { A := PyVal.num 0, B := PyVal.num 0, raw := some exprAxB,
                  function_template := cleanRecAxB } := by
  rw [readFunctions_recAxB]
  simp [returnFunction, mkFunction, cleanRecAxB, pyFloat_00]

theorem evaluate_funAxB (v : ℚ) :
    FunState.evaluate { A := PyVal.num 0, B := PyVal.num 0, raw := some exprAxB,
                        function_template := cleanRecAxB } v = Except.ok (some 0) := by
  simp [FunState.evaluate, evaluateBody, exprCall, varsOk, evalExpr, exprAxB]

theorem evalExpr_ne_typeError (e : Expr) (x A B : ℚ) (h : varsOk e = true) :
    evalExpr e x A B ≠ Except.error EvalErr.typeError := by
  induction e with
  | const q => simp [evalExpr]
  | var n =>
      simp only [varsOk, Bool.or_eq_true, decide_eq_true_eq] at h
      rcases h with (h | h) | h <;> simp [evalExpr, h]
  | neg a ih =>
      rw [varsOk] at h
      cases he : evalExpr a x A B with
      | ok v => simp [evalExpr, he]
      | error err =>
          simp only [evalExpr, he, ne_eq, Except.error.injEq]
          intro hc
          exact ih h (by rw [hc] at he; exact he)
  | add a b iha ihb =>
      simp only [varsOk, Bool.and_eq_true] at h
      cases he : evalExpr a x A B with
      | error err =>
          simp only [evalExpr, he, ne_eq, Except.error.injEq]
          intro hc
          exact iha h.1 (by rw [hc] at he; exact he)
      | ok v =>
          cases hf : evalExpr b x A B with
          | error err =>
              simp only [evalExpr, he, hf, ne_eq, Except.error.injEq]
              intro hc
              exact ihb h.2 (by rw [hc] at hf; exact hf)
          | ok w => simp [evalExpr, he, hf]
  | sub a b iha ihb =>
      simp only [varsOk, Bool.and_eq_true] at h
      cases he : evalExpr a x A B with
      | error err =>
          simp only [evalExpr, he, ne_eq, Except.error.injEq]
          intro hc
          exact iha h.1 (by rw [hc] at he; exact he)
      | ok v =>
          cases hf : evalExpr b x A B with
          | error err =>
              simp only [evalExpr, he, hf, ne_eq, Except.error.injEq]
              intro hc
              exact ihb h.2 (by rw [hc] at hf; exact hf)
          | ok w => simp [evalExpr, he, hf]
  | mul a b iha ihb =>
      simp only [varsOk, Bool.and_eq_true] at h
      cases he : evalExpr a x A B with
      | error err =>
          simp only [evalExpr, he, ne_eq, Except.error.injEq]
          intro hc
          exact iha h.1 (by rw [hc] at he; exact he)
      | ok v =>
          cases hf : evalExpr b x A B with
          | error err =>
              simp only [evalExpr, he, hf, ne_eq, Except.error.injEq]
              intro hc
              exact ihb h.2 (by rw [hc] at hf; exact hf)
          | ok w => simp [evalExpr, he, hf]
  | div a b iha ihb =>
      simp only [varsOk, Bool.and_eq_true] at h
      cases he : evalExpr a x A B with
      | error err =>
          simp only [evalExpr, he, ne_eq, Except.error.injEq]
          intro hc
          exact iha h.1 (by rw [hc] at he; exact he)
      | ok v =>
          cases hf : evalExpr b x A B with
          | error err =>
              simp only [evalExpr, he, hf, ne_eq, Except.error.injEq]
              intro hc
              exact ihb h.2 (by rw [hc] at hf; exact hf)
          | ok w =>
              simp only [evalExpr, he, hf]
              split <;> simp
  | pow a n ih =>
      rw [varsOk] at h
      cases he : evalExpr a x A B with
      | error err =>
          simp only [evalExpr, he, ne_eq, Except.error.injEq]
          intro hc
          exact ih h (by rw [hc] at he; exact he)
      | ok v =>
          simp only [evalExpr, he]
          split <;> simp

theorem checkFunction_math_eq_varsOk (e : Expr) :
    checkFunction_math (some e) = varsOk e := by
  cases h : varsOk e with
  | false => simp [checkFunction_math, exprCall, h]
  | true =>
      have hne := evalExpr_ne_typeError e 0 0 0 h
      simp only [checkFunction_math, exprCall, h, if_true]
      cases he : evalExpr e 0 0 0 with
      | ok v => rfl
      | error err =>
          cases err with
          | typeError => exact absurd he hne
          | zeroDivisionError => rfl

theorem defaultName_fields (r : Record) :
    (defaultName r).raw = r.raw ∧ (defaultName r).desc = r.desc
  ∧ (defaultName r).A_desc = r.A_desc ∧ (defaultName r).B_desc = r.B_desc
  ∧ (defaultName r).A = r.A ∧ (defaultName r).B = r.B
  ∧ (defaultName r).name.isSome = true := by
  cases h : r.name <;> simp [defaultName, h]

theorem defaultName_of_none (r : Record) (h : r.name = none) :
    defaultName r = { r with name := some "Unnamed Function" } := by
  simp [defaultName, h]

theorem defaultParams_fields (r : Record) :
    (defaultParams r).raw = r.raw ∧ (defaultParams r).name = r.name
  ∧ (defaultParams r).desc = r.desc ∧ (defaultParams r).A_desc = r.A_desc
  ∧ (defaultParams r).B_desc = r.B_desc
  ∧ (defaultParams r).A.isSome = true ∧ (defaultParams r).B.isSome = true := by
  by_cases h : checkFunction_params r = true
  · have h2 := h
    simp only [checkFunction_params, Bool.and_eq_true] at h2
    simp [defaultParams, h, h2.1, h2.2]
  · simp [defaultParams, h]

theorem defaultParams_of_missing (r : Record) (h : r.A = none ∨ r.B = none) :
    (defaultParams r).A = some (PyVal.str "0.0")
  ∧ (defaultParams r).B = some (PyVal.str "0.0") := by
  have hp : checkFunction_params r = false := by
    rcases h with h | h <;> simp [checkFunction_params, h]
  simp [defaultParams, hp]

theorem defaultParams_of_present (r : Record) (hA : r.A.isSome = true)
    (hB : r.B.isSome = true) : defaultParams r = r := by
  simp [defaultParams, checkFunction_params, hA, hB]

theorem defaultDescs_fields (r : Record) :
    (defaultDescs r).raw = r.raw ∧ (defaultDescs r).name = r.name
  ∧ (defaultDescs r).A = r.A ∧ (defaultDescs r).B = r.B
  ∧ (defaultDescs r).desc.isSome = true ∧ (defaultDescs r).A_desc.isSome = true
  ∧ (defaultDescs r).B_desc.isSome = true := by
  by_cases h : checkFunction_desc r = true
  · have h2 := h
    simp only [checkFunction_desc, Bool.and_eq_true] at h2
    simp [defaultDescs, h, h2.1.1.2, h2.1.2, h2.2]
  · simp [defaultDescs, h]

theorem defaultDescs_of_missing (r : Record)
    (h : r.desc = none ∨ r.A_desc = none ∨ r.B_desc = none) :
    (defaultDescs r).desc = some "" ∧ (defaultDescs r).A_desc = some ""
  ∧ (defaultDescs r).B_desc = some "" := by
  have hd : checkFunction_desc r = false := by
    rcases h with h | h | h <;> simp [checkFunction_desc, h]
  simp [defaultDescs, hd]

theorem defaultDescs_of_complete (r : Record) (h : checkFunction_desc r = true) :
    defaultDescs r = r := by
  simp [defaultDescs, h]

theorem cleanRecord_raw (r : Record) : (cleanRecord r).raw = r.raw := by
  rw [cleanRecord,
      (defaultDescs_fields (defaultParams (defaultName r))).1,
      (defaultParams_fields (defaultName r)).1,
      (defaultName_fields r).1]

theorem validShape_cleanRecord (r : Record) (h : keepRecord r = true) :
    validShape (cleanRecord r) = true := by
  have hraw : r.raw.isSome = true := by
    cases hr : r.raw with
    | none => rw [keepRecord, hr] at h; exact absurd h (by simp)
    | some p => rfl
  obtain ⟨d1, d2, d3, d4, d5, d6, d7⟩ := defaultDescs_fields (defaultParams (defaultName r))
  obtain ⟨p1, p2, p3, p4, p5, p6, p7⟩ := defaultParams_fields (defaultName r)
  obtain ⟨n1, n2, n3, n4, n5, n6, n7⟩ := defaultName_fields r
  rw [validShape, cleanRecord]
  rw [d1, d2, d3, d4, d5, d6, d7, p1, p2, p6, p7, n1, n7, hraw]
  rfl

theorem readFunctions_cons (a : Record) (l : List Record) :
    readFunctions (a :: l) =
      if keepRecord a then cleanRecord a :: readFunctions l else readFunctions l := rfl

/-- C1: checkFunction_math returns true for every parse result whose
expression is over free variables restricted to exactly x, A, B (in the
model the probe call at x=0, A=0, B=0 raises a type error exactly when a
variable outside that set occurs, and a division by zero at the probe is
tolerated), false for text that does not parse as an expression or that
references a variable outside the set, and true on the parse of "1/x". -/
theorem checkFunction_math_spec :
    (∀ e : Expr, checkFunction_math (some e) = varsOk e)
  ∧ checkFunction_math (none : Raw) = false
  ∧ checkFunction_math (some exprOneOverX) = true := by
  refine ⟨checkFunction_math_eq_varsOk, rfl, ?_⟩
  rw [checkFunction_math_eq_varsOk]
  decide

/-- C2: loading the single-record input with the single record whose only key is raw = "A*x+B" produces
exactly one survivor record with name "Unnamed Function", A and B the
string "0.0" and empty desc, A_desc, B_desc; instantiating it with
returnFunction 0 and evaluating at x = 0, 1, 2 with the default
parameters yields 0, 0, 0. -/
theorem end_to_end_AxB :
    readFunctions [recAxB] =
      [{ raw := some (some exprAxB), name := some "Unnamed Function",
         desc := some "", A_desc := some "", B_desc := some "",
         A := some (PyVal.str "0.0"), B := some (PyVal.str "0.0") }]
  ∧ Except.map (fun f => [(0 : ℚ), 1, 2].map (fun v => FunState.evaluate f v))
      (returnFunction (readFunctions [recAxB]) 0)
      = Except.ok [Except.ok (some 0), Except.ok (some 0), Except.ok (some 0)] := by
  constructor
  · rw [readFunctions_recAxB]
    rfl
  · rw [returnFunction_recAxB]
    simp [Except.map, evaluate_funAxB]

/-- C3: parameter completion is all-or-nothing: a record with A or B
absent comes out of the per-record validation with both equal to the
string "0.0" (a present value for one of the two is overwritten), and a
record with both present keeps both unchanged. -/
theorem params_all_or_nothing (r : Record) :
    ((r.A = none ∨ r.B = none) →
       (cleanRecord r).A = some (PyVal.str "0.0")
     ∧ (cleanRecord r).B = some (PyVal.str "0.0"))
  ∧ (r.A.isSome = true → r.B.isSome = true →
       (cleanRecord r).A = r.A ∧ (cleanRecord r).B = r.B) := by
  obtain ⟨n1, n2, n3, n4, n5, n6, n7⟩ := defaultName_fields r
  obtain ⟨d1, d2, d3, d4, d5, d6, d7⟩ := defaultDescs_fields (defaultParams (defaultName r))
  constructor
  · intro h
    have h2 : (defaultName r).A = none ∨ (defaultName r).B = none := by
      rw [n5, n6]; exact h
    obtain ⟨hA2, hB2⟩ := defaultParams_of_missing _ h2
    exact ⟨by rw [cleanRecord, d3, hA2], by rw [cleanRecord, d4, hB2]⟩
  · intro hA hB
    have heq : defaultParams (defaultName r) = defaultName r :=
      defaultParams_of_present _ (by rw [n5]; exact hA) (by rw [n6]; exact hB)
    exact ⟨by rw [cleanRecord, d3, heq, n5], by rw [cleanRecord, d4, heq, n6]⟩

/-- C3 witness: a concrete record with A absent and B present comes out
with both parameters set to "0.0". -/
theorem params_all_or_nothing_witness :
    (recMissingA.A = none ∨ recMissingA.B = none)
  ∧ ((cleanRecord recMissingA).A = some (PyVal.str "0.0")
     ∧ (cleanRecord recMissingA).B = some (PyVal.str "0.0")) :=
  ⟨Or.inl rfl, (params_all_or_nothing recMissingA).1 (Or.inl rfl)⟩

/-- C4: description completion is all-or-nothing over desc, A_desc and
B_desc: a record missing any one of the three comes out of the
per-record validation with all three empty, while a record missing only
name but carrying all three descriptions keeps them unchanged. -/
theorem descs_all_or_nothing (r : Record) :
    ((r.desc = none ∨ r.A_desc = none ∨ r.B_desc = none) →
       (cleanRecord r).desc = some "" ∧ (cleanRecord r).A_desc = some ""
     ∧ (cleanRecord r).B_desc = some "")
  ∧ (r.name = none → r.desc.isSome = true → r.A_desc.isSome = true →
     r.B_desc.isSome = true →
       (cleanRecord r).desc = r.desc ∧ (cleanRecord r).A_desc = r.A_desc
     ∧ (cleanRecord r).B_desc = r.B_desc) := by
  obtain ⟨n1, n2, n3, n4, n5, n6, n7⟩ := defaultName_fields r
  obtain ⟨p1, p2, p3, p4, p5, p6, p7⟩ := defaultParams_fields (defaultName r)
  constructor
  · intro h
    rw [cleanRecord]
    exact defaultDescs_of_missing _ (by rw [p3, p4, p5, n2, n3, n4]; exact h)
  · intro hn hd had hbd
    have hcheck : checkFunction_desc (defaultParams (defaultName r)) = true := by
      rw [checkFunction_desc, p2, p3, p4, p5, n2, n3, n4]
      simp [n7, hd, had, hbd]
    have heq := defaultDescs_of_complete _ hcheck
    refine ⟨?_, ?_, ?_⟩
    · rw [cleanRecord, heq, p3, n2]
    · rw [cleanRecord, heq, p4, n3]
    · rw [cleanRecord, heq, p5, n4]

/-- C4 witness: a concrete record with desc absent but both parameter
descriptions present comes out with all three descriptions empty. -/
theorem descs_all_or_nothing_witness :
    (recMissingDesc.desc = none ∨ recMissingDesc.A_desc = none
     ∨ recMissingDesc.B_desc = none)
  ∧ ((cleanRecord recMissingDesc).desc = some ""
     ∧ (cleanRecord recMissingDesc).A_desc = some ""
     ∧ (cleanRecord recMissingDesc).B_desc = some "") :=
  ⟨Or.inl rfl, (descs_all_or_nothing recMissingDesc).1 (Or.inl rfl)⟩

/-- C5: readFunctions mutates every input record in place (kept or not),
returns exactly the cleaned versions of the records that passed the
step-1 math check, in input order, and every returned record has the
ValidatedFunctionRecord shape. -/
theorem readFunctions_spec (l : List Record) :
    (readFunctionsLoop l).1 = l.map cleanRecord
  ∧ readFunctions l = (l.filter keepRecord).map cleanRecord
  ∧ ∀ r, r ∈ readFunctions l → validShape r = true := by
  induction l with
  | nil =>
      exact ⟨rfl, rfl, fun r hr => absurd hr (List.not_mem_nil r)⟩
  | cons a l ih =>
      obtain ⟨ih1, ih2, ih3⟩ := ih
      refine ⟨?_, ?_, ?_⟩
      · show cleanRecord a :: (readFunctionsLoop l).1 = cleanRecord a :: l.map cleanRecord
        rw [ih1]
      · rw [readFunctions_cons, List.filter_cons]
        by_cases h : keepRecord a = true
        · rw [if_pos h, if_pos h, List.map_cons, ih2]
        · rw [if_neg h, if_neg h, ih2]
      · intro r hr
        rw [readFunctions_cons] at hr
        by_cases h : keepRecord a = true
        · rw [if_pos h] at hr
          cases List.mem_cons.mp hr with
          | inl he => rw [he]; exact validShape_cleanRecord a h
          | inr hm => exact ih3 r hm
        · rw [if_neg h] at hr
          exact ih3 r hr

/-- C5 witness: the concrete survivor of loading the one-record input with only raw = "A*x+B" is in
the output and has the ValidatedFunctionRecord shape. -/
theorem readFunctions_spec_witness :
    cleanRecAxB ∈ readFunctions [recAxB] ∧ validShape cleanRecAxB = true := by
  have hm : cleanRecAxB ∈ readFunctions [recAxB] := by
    rw [readFunctions_recAxB]
    exact List.mem_singleton.mpr rfl
  exact ⟨hm, (readFunctions_spec [recAxB]).2.2 cleanRecAxB hm⟩

/-- A concrete TwoParameterFunction state, as left by a constructor
call with the default numeric arguments. -/
def tpfW : TPFState :=
  { A := PyVal.num 10, B := PyVal.num 2, name := "Unnamed",
    description := "No description", raw := "", A_desc := "", B_desc := "" }

/-- A record whose A value is a string that fails float() coercion
while its B value coerces to 1: the mixed case of instantiation-time
coercion failure. -/
def recMixedParams : Record :=
  { raw := some (some exprAxB), name := some "Mixed", desc := some "",
    A_desc := some "", B_desc := some "",
    A := some (PyVal.str "abc"), B := some (PyVal.str "1.0") }

/-- The Function object built from recMixedParams: the failing A was
re-set to zero during instantiation while B kept its coerced value. -/
def funMixed : FunState :=
  { A := PyVal.num 0, B := PyVal.num 1, raw := some exprAxB,
    function_template := recMixedParams }

/-- C6: on the generic abstraction, set_A_value and set_B_value raise
InvalidParameter exactly when the argument fails float() coercion (the
error propagates as the call's result), and on success the internal
parameter state holds the coerced float. -/
theorem TPF_set_value_spec (st : TPFState) (v : PyVal) (q : ℚ) :
    (TPF_set_A_value st v = Except.error PyErr.invalidParameter ↔ pyFloat v = none)
  ∧ (TPF_set_B_value st v = Except.error PyErr.invalidParameter ↔ pyFloat v = none)
  ∧ (pyFloat v = some q →
       TPF_set_A_value st v = Except.ok { st with A := PyVal.num q }
     ∧ TPF_set_B_value st v = Except.ok { st with B := PyVal.num q }) := by
  cases hv : pyFloat v with
  | none => simp [TPF_set_A_value, TPF_set_B_value, hv]
  | some q2 =>
      refine ⟨by simp [TPF_set_A_value, hv], by simp [TPF_set_B_value, hv], ?_⟩
      intro hq
      obtain rfl : q2 = q := Option.some.inj hq
      exact ⟨by simp [TPF_set_A_value, hv], by simp [TPF_set_B_value, hv]⟩

/-- C6 witness: setting A to the numeric string "1.5" stores the float
3/2; setting it to "abc" raises InvalidParameter. -/
theorem TPF_set_value_spec_witness :
    pyFloat (PyVal.str "1.5") = some (3 / 2)
  ∧ TPF_set_A_value tpfW (PyVal.str "1.5") = Except.ok { tpfW with A := PyVal.num (3 / 2) }
  ∧ TPF_set_A_value tpfW (PyVal.str "abc") = Except.error PyErr.invalidParameter :=
  ⟨pyFloat_15,
   ((TPF_set_value_spec tpfW (PyVal.str "1.5") (3 / 2)).2.2 pyFloat_15).1,
   (TPF_set_value_spec tpfW (PyVal.str "abc") 0).1.mpr pyFloat_abc⟩

/-- C7: numeric coercion failures on the parsed-function path are
swallowed, never raised: instantiating any record that carries its raw,
A and B keys (as every validated record does) returns a Function object
rather than raising, with each of the two parameters independently
re-set to the default 0.0 when its record value fails float() coercion
and set to the coerced float when it succeeds; and the parsed variant's
set_A_value / set_B_value with any failing value is a no-op, leaving
the parameter state and the backing record unchanged. -/
theorem parsed_coercion_swallowed (t : Record) (g : FunState) (vA vB v : PyVal)
    (p : Raw) (hA : t.A = some vA) (hB : t.B = some vB) (hraw : t.raw = some p)
    (hv : pyFloat v = none) :
    (∃ f : FunState, mkFunction t = Except.ok f
       ∧ (pyFloat vA = none → f.A = PyVal.num 0)
       ∧ (pyFloat vB = none → f.B = PyVal.num 0)
       ∧ (∀ q : ℚ, pyFloat vA = some q → f.A = PyVal.num q)
       ∧ (∀ q : ℚ, pyFloat vB = some q → f.B = PyVal.num q))
  ∧ FunState.set_A_value g v = g ∧ FunState.set_B_value g v = g := by
  refine ⟨?_, by rw [FunState.set_A_value, hv], by rw [FunState.set_B_value, hv]⟩
  refine ⟨{ A := PyVal.num ((pyFloat vA).getD 0), B := PyVal.num ((pyFloat vB).getD 0),
            raw := p, function_template := t }, ?_, ?_, ?_, ?_, ?_⟩
  · simp only [mkFunction, hA, hB, hraw]
    cases hva : pyFloat vA <;> cases hvb : pyFloat vB <;> simp [hva, hvb]
  · intro h
    simp [h]
  · intro h
    simp [h]
  · intro q h
    simp [h]
  · intro q h
    simp [h]

/-- C7 witness: the record with failing A value "abc" and succeeding B
value "1.0" instantiates without an exception to the Function with A
re-set to 0 and B set to the coerced 1, and a failing setter call
leaves that Function unchanged. -/
theorem parsed_coercion_swallowed_witness :
    (recMixedParams.A = some (PyVal.str "abc") ∧ pyFloat (PyVal.str "abc") = none
     ∧ recMixedParams.B = some (PyVal.str "1.0") ∧ pyFloat (PyVal.str "1.0") = some 1)
  ∧ (mkFunction recMixedParams = Except.ok funMixed
     ∧ funMixed.A = PyVal.num 0 ∧ funMixed.B = PyVal.num 1
     ∧ FunState.set_A_value funMixed (PyVal.str "abc") = funMixed
     ∧ FunState.set_B_value funMixed (PyVal.str "abc") = funMixed) := by
  obtain ⟨⟨f, hok, hA0, hB0, hAq, hBq⟩, hsA, hsB⟩ :=
    parsed_coercion_swallowed recMixedParams funMixed (PyVal.str "abc")
      (PyVal.str "1.0") (PyVal.str "abc") (some exprAxB) rfl rfl rfl pyFloat_abc
  have hmk : mkFunction recMixedParams = Except.ok funMixed := by
    simp [mkFunction, recMixedParams, funMixed, pyFloat_abc, pyFloat_10]
  obtain rfl : f = funMixed := Except.ok.inj (hok.symm.trans hmk)
  exact ⟨⟨rfl, pyFloat_abc, rfl, pyFloat_10⟩,
         hmk, hA0 pyFloat_abc, hBq 1 pyFloat_10, hsA, hsB⟩

/-- C8 counterexample: the Function loaded from the record with raw text
"1/x" does not return None when evaluated at x=0 — the ZeroDivisionError
raised during evaluation is not caught (only ValueError is) and
propagates to the caller. -/
theorem evaluate_zeroDivision_propagates :
    Except.map (fun f => FunState.evaluate f 0)
      (returnFunction (readFunctions [recOneOverX]) 0)
      = Except.ok (Except.error PyErr.zeroDivisionError)
  ∧ Except.map (fun f => FunState.evaluate f 0)
      (returnFunction (readFunctions [recOneOverX]) 0)
      ≠ Except.ok (Except.ok none) := by
  have h1 : readFunctions [recOneOverX] = [recOneOverX] := by
    simp [readFunctions, readFunctionsLoop, keepRecord, checkFunction_math, exprCall,
          varsOk, evalExpr, recOneOverX, exprOneOverX, cleanRecord, defaultName,
          defaultParams, defaultDescs, checkFunction_params, checkFunction_desc]
  have h2 : returnFunction (readFunctions [recOneOverX]) 0 =
      Except.ok { A := PyVal.num 1, B := PyVal.num 1, raw := some exprOneOverX,
                  function_template := recOneOverX } := by
    rw [h1]
    simp [returnFunction, mkFunction, recOneOverX, pyFloat_10]
  have h3 : FunState.evaluate
      { A := PyVal.num 1, B := PyVal.num 1, raw := some exprOneOverX,
        function_template := recOneOverX } 0 = Except.error PyErr.zeroDivisionError := by
    simp [FunState.evaluate, evaluateBody, exprCall, varsOk, evalExpr, exprOneOverX,
          evalErrToPy]
  constructor
  · rw [h2]
    simp [Except.map, h3]
  · rw [h2]
    simp [Except.map, h3]

/-- C8 amended: Function.evaluate returns None exactly when the body
(rebuilding the expression and calling it) raises ValueError; a
ZeroDivisionError or TypeError raised at evaluation time is not caught
and propagates to the caller, and a successful evaluation is returned
as a value. -/
theorem evaluate_catches_only_valueError (f : FunState) (v : ℚ) :
    (FunState.evaluate f v = Except.ok none ↔
       evaluateBody f v = Except.error PyErr.valueError)
  ∧ (∀ r : ℚ, FunState.evaluate f v = Except.ok (some r) ↔ evaluateBody f v = Except.ok r)
  ∧ (FunState.evaluate f v = Except.error PyErr.zeroDivisionError ↔
       evaluateBody f v = Except.error PyErr.zeroDivisionError)
  ∧ (FunState.evaluate f v = Except.error PyErr.typeError ↔
       evaluateBody f v = Except.error PyErr.typeError) := by
  cases hb : evaluateBody f v with
  | ok r => simp [FunState.evaluate, hb]
  | error e => cases e <;> simp [FunState.evaluate, hb]

/-- C9 (code bug): the parsed variant's set_A_value validates that the
argument coerces to float, but then stores the UNCOERCED argument, so
after setting A to the numeric string "1.5" (which coerces to 3/2),
get_A_value returns the string value "1.5", not a number — contradicting
the numeric invariant stated for the abstraction. -/
theorem set_A_value_stores_raw_string :
    pyFloat (PyVal.str "1.5") = some (3 / 2)
  ∧ Except.map (fun f => FunState.get_A_value (FunState.set_A_value f (PyVal.str "1.5")))
      (returnFunction (readFunctions [recAxB]) 0) = Except.ok (PyVal.str "1.5")
  ∧ PyVal.isNum (PyVal.str "1.5") = false := by
  refine ⟨pyFloat_15, ?_, rfl⟩
  rw [returnFunction_recAxB]
  simp [Except.map, FunState.set_A_value, FunState.get_A_value, pyFloat_15]

/-- C10: Pyramid can never be constructed: for every choice of arguments
(the defaults included) Pyramid.__init__ calls the base constructor with
no arguments, which raises TypeError for the two missing required
positional arguments. -/
theorem Pyramid_init_always_fails (A B : PyVal) :
    Pyramid_init A B = Except.error PyErr.typeError := rfl
